import Mathlib

/-!
Verification of the multi-agent routing/orchestration state machine.

Shallow embedding of the repository's core control flow.  The repository
contains two near-duplicate implementations (a monolithic-function form in
`agent.py`, `supervisor_agent.py`, `*_agent_node.py`, and a class-hierarchy
form under `src/agents`, `src/graph`, `src/utils`); the embedding follows the
class-hierarchy form, which returns full updated state dictionaries, and
notes the (claim-irrelevant) divergences of the flat form in comments.

External collaborators (the OpenAI model gateway, the ChromaDB vector store,
the SQLite lookup tools, the interactive `ask_user` input) are modelled as
oracle parameters: the embedded functions take the collaborator's response as
an argument, exactly at the point where the Python code performs the external
call.  Python `dict.get` with a default is modelled by `Option.getD`; a key
that is absent (or never written) is `none`.
-/

namespace MultiAgent

/-- One FAQ metadata record, as stored in ChromaDB query results
(`results["metadatas"]` entries with `question`/`answer` keys). -/
structure FaqMeta where
  question : String
  answer : String
deriving DecidableEq, Repr

/-- The result of `json.loads` on a supervisor routing response, viewed as an
object with the three optional keys read by `_route_request`
(`src/src/agents/supervisor.py` lines 209-211). -/
structure RoutingJson where
  next_agent : Option String
  task : Option String
  justification : Option String
deriving DecidableEq, Repr

/-- The shared `GraphState` dictionary (`src/src/graph/state.py`), restricted
to the fields read or written by the supervisor, the dispatcher and the
specialist handlers.  `escalate_to_human` is the extra key written by the
supervisor's iteration-ceiling branch (`src/src/agents/supervisor.py` line 58);
it is not declared in the `GraphState` TypedDict and nothing in the repository
reads it.  `Option _ = none` models an absent key. -/
structure AgentState where
  messages : List (String × String)
  user_input : String
  conversation_history : String
  n_iteration : Nat
  customer_id : Option String
  policy_number : Option String
  claim_id : Option String
  next_agent : Option String
  task : Option String
  justification : Option String
  end_conversation : Bool
  needs_clarification : Bool
  clarification_question : Option String
  user_clarification : Option String
  retrieved_faqs : Option (List (List FaqMeta))
  requires_human_escalation : Bool
  escalation_reason : Option String
  escalate_to_human : Bool
  final_answer : Option String
deriving DecidableEq, Repr

/-- `create_initial_state` (`src/src/graph/state.py`), restricted to the
embedded fields.  `escalate_to_human` starts absent, i.e. falsy. -/
def createInitialState (user_input : String) : AgentState :=
  { messages := []
    user_input := user_input
    conversation_history := "User: " ++ user_input
    n_iteration := 0
    customer_id := none
    policy_number := none
    claim_id := none
    next_agent := some "supervisor_agent"
    task := some "Help user with their query"
    justification := none
    end_conversation := false
    needs_clarification := false
    clarification_question := none
    user_clarification := none
    retrieved_faqs := none
    requires_human_escalation := false
    escalation_reason := none
    escalate_to_human := false
    final_answer := none }

/-- `settings.SUPERVISOR_MAX_ITERATIONS` default (`src/src/config.py` line 69);
the flat implementation hardcodes the same constant 3. -/
def SUPERVISOR_MAX_ITERATIONS : Nat := 3

/-- The conditional dispatch function `decide_next_agent`
(`src/src/graph/routing.py` lines 11-42; the copy in `src/agent.py`
lines 151-162 is logically identical).  Python truthiness of the three flags
is modelled by `Bool`; the final `state.get("next_agent",
"general_help_agent")` returns the default only when the key is absent. -/
def decide_next_agent (state : AgentState) : String :=
  if state.needs_clarification then "supervisor_agent"
  else if state.end_conversation then "end"
  else if state.requires_human_escalation then "human_escalation_agent"
  else state.next_agent.getD "general_help_agent"

/-- The seven workflow nodes (`create_workflow`, `src/src/graph/workflow.py`). -/
inductive Node
  | supervisor
  | policy
  | billing
  | claims
  | generalHelp
  | humanEscalation
  | finalAnswer
deriving DecidableEq, Repr

/-- The path map of the conditional edges out of the supervisor node
(`src/src/graph/workflow.py` lines 50-63; identical map in `src/agent.py`
lines 179-191).  A label outside the map has no edge: LangGraph raises at
run time, so the result is `none`. -/
def supervisorEdgeMap (label : String) : Option Node :=
  if label = "supervisor_agent" then some Node.supervisor
  else if label = "policy_agent" then some Node.policy
  else if label = "billing_agent" then some Node.billing
  else if label = "claims_agent" then some Node.claims
  else if label = "human_escalation_agent" then some Node.humanEscalation
  else if label = "general_help_agent" then some Node.generalHelp
  else if label = "end" then some Node.finalAnswer
  else none

/-- The model gateway's reply to the supervisor's routing request
(`SupervisorAgent._route_request`): either an `ask_user` tool call — in which
case the blocking `ask_user` round trip supplies `userAnswer` — or a plain
text content.  Parsing of a plain content by `json.loads` is modelled by the
`parse` oracle argument of the functions below (`none` = `JSONDecodeError`). -/
inductive ModelMsg
  | askUser (question : String) (missingInfo : String) (userAnswer : String)
  | plain (content : String)

/-- `SupervisorAgent._handle_clarification` (`src/src/agents/supervisor.py`
lines 71-104): append the Q/A exchange to history, set
`needs_clarification = False`, record the incremented iteration counter, and
`pop` the two clarification text fields. -/
def handleClarification (state : AgentState) (n_iter : Nat) : AgentState :=
  let user_clarification := state.user_clarification.getD ""
  let clarification_question := state.clarification_question.getD ""
  { state with
    needs_clarification := false
    conversation_history := state.conversation_history ++
      "\nAssistant: " ++ clarification_question ++ "\nUser: " ++ user_clarification
    n_iteration := n_iter
    clarification_question := none
    user_clarification := none }

/-- `SupervisorAgent._route_request` (`src/src/agents/supervisor.py`
lines 106-232).  If the model requests the `ask_user` tool, record the
clarification round and return; otherwise parse the plain content as JSON
(`parse`), falling back to the empty object on `JSONDecodeError`, and read the
three routing keys with their documented defaults. -/
def routeRequest (parse : String → Option RoutingJson) (msg : ModelMsg)
    (state : AgentState) (n_iter : Nat) : AgentState :=
  match msg with
  | ModelMsg.askUser question _ userAnswer =>
      { state with
        needs_clarification := true
        clarification_question := some question
        user_clarification := some userAnswer
        conversation_history := state.conversation_history ++
          "\nAssistant: " ++ question ++ "\nUser: " ++ userAnswer
        n_iteration := n_iter }
  | ModelMsg.plain content =>
      let parsed : RoutingJson := (parse content).getD ⟨none, none, none⟩
      let next_agent := parsed.next_agent.getD "general_help_agent"
      let task := parsed.task.getD "Assist the user with their query."
      let justification := parsed.justification.getD ""
      { state with
        next_agent := some next_agent
        task := some task
        justification := some justification
        conversation_history := state.conversation_history ++
          "\nAssistant: Routing to " ++ next_agent ++ " for: " ++ task
        n_iteration := n_iter }

/-- `SupervisorAgent.process` (`src/src/agents/supervisor.py` lines 33-69):
increment the iteration counter; if it reached `max_iterations`, take the
forced-escalation branch (note: it sets the `escalate_to_human` key and
`next_agent`, leaves `requires_human_escalation` and `needs_clarification`
untouched); else if `needs_clarification` is set, resolve the clarification;
else perform normal routing.  The flat `supervisor_agent` function has the
same branch structure with `max_iterations` hardcoded to 3. -/
def supervisorProcess (parse : String → Option RoutingJson) (msg : ModelMsg)
    (maxIter : Nat) (state : AgentState) : AgentState :=
  let n_iter := state.n_iteration + 1
  if maxIter ≤ n_iter then
    { state with
      escalate_to_human := true
      conversation_history := state.conversation_history ++
        "\nAssistant: It seems this issue requires human review. Escalating to a human support specialist."
      next_agent := some "human_escalation_agent"
      n_iteration := n_iter }
  else if state.needs_clarification then
    handleClarification state n_iter
  else
    routeRequest parse msg state n_iter

/-- A Python exception escaping a handler, aborting the turn. -/
inductive PyErr
  | jsonDecodeError
  | nameError (name : String)
deriving DecidableEq, Repr

/-- Parsed tool-call arguments (the result of `json.loads` on the arguments
string): a JSON object modelled as keyword/value pairs. -/
def ArgsV := List (String × String)

/-- The behaviour of one registered tool function on given arguments: it
either returns a value (its `json.dumps` serialization) or raises an
exception whose `str` is `msg`.  A lookup tool returning a not-found record
such as `{"error": "Policy not found"}` (`src/tools.py`) is an ordinary
`returns`. -/
inductive ToolExec
  | returns (payload : String)
  | raises (msg : String)

/-- One tool call requested by the model.  `args = none` models an arguments
string that is not valid JSON, on which `json.loads(tool_call.function.arguments
or "{}")` raises `JSONDecodeError`. -/
structure ToolCallReq where
  name : String
  args : Option ArgsV

/-- The content of one `role: "tool"` message appended by the tool loop:
either `json.dumps({"error": msg})` or `json.dumps(result)` for a normal
result. -/
inductive ToolMsg
  | errorPayload (msg : String)
  | resultPayload (payload : String)
deriving DecidableEq, Repr

/-- The handler's `tool_functions` registry (a Python dict, modelled as an
association list). -/
def ToolRegistry := List (String × (ArgsV → ToolExec))

/-- `tool_functions.get(func_name)`. -/
def lookupTool : ToolRegistry → String → Option (ArgsV → ToolExec)
  | [], _ => none
  | (n, f) :: rest, name => if n = name then some f else lookupTool rest name

/-- The body of the tool loop in `LLMClient.run_llm`
(`src/src/utils/llm_client.py` lines 105-126; identical in `src/agent.py`
lines 76-92) for one tool call: `json.loads` on the arguments string runs
*outside* the `try`, so a malformed arguments string raises out of the loop;
a missing tool function or a raising tool function is converted to an
`{"error": ...}` payload inside the `try`. -/
def execToolCall (toolFns : ToolRegistry) (tc : ToolCallReq) : Except PyErr ToolMsg :=
  match tc.args with
  | none => Except.error PyErr.jsonDecodeError
  | some args =>
      match lookupTool toolFns tc.name with
      | none => Except.ok (ToolMsg.errorPayload ("Tool \x27" ++ tc.name ++ "\x27 not implemented."))
      | some tool_fn =>
          match tool_fn args with
          | ToolExec.returns v => Except.ok (ToolMsg.resultPayload v)
          | ToolExec.raises msg => Except.ok (ToolMsg.errorPayload msg)

/-- The whole tool loop: build the `tool_messages` list in order, propagating
an uncaught `JSONDecodeError`. -/
def execTools (toolFns : ToolRegistry) : List ToolCallReq → Except PyErr (List ToolMsg)
  | [] => Except.ok []
  | tc :: rest => do
      let m ← execToolCall toolFns tc
      let ms ← execTools toolFns rest
      return m :: ms

/-- The model gateway's first response inside `run_llm`: plain text, or a
(possibly empty) list of tool calls together with the message content. -/
inductive LLMFirstResponse
  | text (content : String)
  | toolCalls (calls : List ToolCallReq) (content : String)

/-- `LLMClient.run_llm` (`src/src/utils/llm_client.py` lines 33-180; same
logic in `src/agent.py` `run_llm`), with the two model round trips supplied
as oracles: no tool calls returns the content unchanged; tool calls with an
empty registry return the content plus a fixed warning; otherwise the tool
loop runs and its messages are fed to the second round trip (`secondRound`),
whose text is the result. -/
def run_llm (first : LLMFirstResponse) (toolFns : ToolRegistry)
    (secondRound : List ToolMsg → String) : Except PyErr String :=
  match first with
  | LLMFirstResponse.text content => Except.ok content
  | LLMFirstResponse.toolCalls calls content =>
      if calls.isEmpty then Except.ok content
      else if toolFns.isEmpty then
        Except.ok (content ++ "\n\n⚠️ No tool functions provided to execute tool calls.")
      else (execTools toolFns calls).map secondRound

/-- `BaseAgent.add_message` (`src/src/agents/base.py` lines 143-159):
append one `(role, content)` entry to `messages`. -/
def addMessage (state : AgentState) (role : String) (content : String) : AgentState :=
  { state with messages := state.messages ++ [(role, content)] }

/-- `PolicyAgent.process` (`src/src/agents/policy_agent.py` lines 26-92) with
the `run_llm` final text supplied as the oracle `result`: the handler only
appends one assistant message; it does not touch `conversation_history`.
The flat `policy_agent_node` likewise returns only the `messages` update. -/
def policyProcess (result : String) (state : AgentState) : AgentState :=
  addMessage state "assistant" result

/-- `ClaimsAgent.process` (`src/src/agents/claims_agent.py` lines 26-80):
same shape as the policy handler — one message appended, history untouched. -/
def claimsProcess (result : String) (state : AgentState) : AgentState :=
  addMessage state "assistant" result

/-- `BillingAgent.process` (`src/src/agents/billing_agent.py` lines 26-105):
append one assistant message, re-write the (unchanged) entity fields when
present, and append the `"Billing Agent: <result>"` line to history. -/
def billingProcess (result : String) (state : AgentState) : AgentState :=
  let updated_state := addMessage state "assistant" result
  let updated_state :=
    match state.policy_number with
    | some p => { updated_state with policy_number := some p }
    | none => updated_state
  let updated_state :=
    match state.customer_id with
    | some c => { updated_state with customer_id := some c }
    | none => updated_state
  { updated_state with
    conversation_history := state.conversation_history ++ "\nBilling Agent: " ++ result }

/-- A ChromaDB query result, restricted to the `metadatas` key read by the
general-help handler (`results["metadatas"]` is a list of per-query lists). -/
structure QueryResults where
  metadatas : List (List FaqMeta)
deriving DecidableEq, Repr

/-- The external vector-store collaborator as seen by
`GeneralHelpAgent.process`: `queryResult` is the outcome of
`self.vector_store.query(user_query, n_results=3)` (`Except.error` = the call
raised), and `formatCtx` is `self.vector_store.format_faq_context`. -/
structure VectorStoreOracle where
  queryResult : Except String QueryResults
  formatCtx : QueryResults → String

/-- `GeneralHelpAgent.process` (`src/src/agents/general_help_agent.py`
lines 27-90).  The local Python variable `results` is bound only when the
`query` call returns, yet the line
`updated_state["retrieved_faqs"] = results.get("metadatas", [])` runs
unconditionally after the LLM call, so a raising `query` leads to a
`NameError` there — modelled by `boundResults`.  `runLlm` abstracts the
`GENERAL_HELP_PROMPT.format(task=..., conversation_history=...,
faq_context=...)` instantiation composed with the model call, applied to the
three template arguments. -/
def generalHelpProcess (vstore : VectorStoreOracle)
    (runLlm : String → String → String → String) (state : AgentState) :
    Except PyErr AgentState :=
  let conversation_history := state.conversation_history
  let task := state.task.getD "General insurance support"
  let boundResults : Option QueryResults :=
    match vstore.queryResult with
    | Except.ok r => some r
    | Except.error _ => none
  let faq_context :=
    match vstore.queryResult with
    | Except.ok results =>
        if results.metadatas.isEmpty then "No relevant FAQs were found."
        else vstore.formatCtx results
    | Except.error _ => "Error retrieving FAQs from knowledge base."
  let final_answer := runLlm task conversation_history faq_context
  let updated_state := addMessage state "assistant" final_answer
  match boundResults with
  | none => Except.error (PyErr.nameError "results")
  | some results =>
      Except.ok
        { updated_state with
          retrieved_faqs := some results.metadatas
          conversation_history :=
            conversation_history ++ "\nGeneral Help Agent: " ++ final_answer }

/-- A workflow configuration: the node about to execute and the current
shared state. -/
structure Config where
  node : Node
  state : AgentState
deriving DecidableEq, Repr

/-- All external collaborators of one workflow run, as deterministic oracles:
`supMsg k` is the model gateway's reply to the supervisor invocation entered
with `n_iteration = k`; `parse` is `json.loads` on supervisor routing
replies; `specResp` is the specialist handlers' final `run_llm` text;
`vstore`/`ghLlm` serve the general-help handler. -/
structure Oracle where
  parse : String → Option RoutingJson
  supMsg : Nat → ModelMsg
  specResp : Node → String
  vstore : VectorStoreOracle
  ghLlm : String → String → String → String

/-- One engine step (`create_workflow`, `src/src/graph/workflow.py`
lines 50-76): execute the current node's handler, then follow the conditional
dispatch (after the supervisor) or the fixed edge back to the supervisor
(after a specialist).  `final_answer_agent` and `human_escalation_agent` lead
to `END`, and a dispatch label outside the path map makes LangGraph raise:
both stop the run, so `step` returns `none`. -/
def step (orc : Oracle) (cfg : Config) : Option Config :=
  match cfg.node with
  | Node.supervisor =>
      let s := supervisorProcess orc.parse (orc.supMsg cfg.state.n_iteration)
        SUPERVISOR_MAX_ITERATIONS cfg.state
      match supervisorEdgeMap (decide_next_agent s) with
      | some n => some ⟨n, s⟩
      | none => none
  | Node.policy => some ⟨Node.supervisor, policyProcess (orc.specResp Node.policy) cfg.state⟩
  | Node.billing => some ⟨Node.supervisor, billingProcess (orc.specResp Node.billing) cfg.state⟩
  | Node.claims => some ⟨Node.supervisor, claimsProcess (orc.specResp Node.claims) cfg.state⟩
  | Node.generalHelp =>
      match generalHelpProcess orc.vstore orc.ghLlm cfg.state with
      | Except.ok s => some ⟨Node.supervisor, s⟩
      | Except.error _ => none
  | Node.humanEscalation => none
  | Node.finalAnswer => none

/-- Iterated engine execution: the configuration after `k` steps, or `none`
once the run has stopped. -/
def runN (orc : Oracle) : Nat → Config → Option Config
  | 0, cfg => some cfg
  | k + 1, cfg => (runN orc k cfg).bind (step orc)

/-- A concrete adversarial model gateway: the first supervisor invocation
routes to the policy agent, the second requests a clarification via
`ask_user`, later replies are irrelevant. -/
def badOracle : Oracle :=
  { parse := fun content =>
      if content = "ROUTE_POLICY" then
        some ⟨some "policy_agent", some "Check the policy", some "policy question"⟩
      else none
    supMsg := fun k =>
      if k = 0 then ModelMsg.plain "ROUTE_POLICY"
      else ModelMsg.askUser "Which policy number?" "policy number" "I am not sure"
    specResp := fun _ => "Here are the policy details."
    vstore := ⟨Except.ok ⟨[]⟩, fun _ => ""⟩
    ghLlm := fun _ _ _ => "" }

/-- The entry configuration of a fresh conversation. -/
def badInit : Config := ⟨Node.supervisor, createInitialState "I need help with my policy"⟩

/-- Checks that a run position is the supervisor node with a pending
clarification at or beyond the loop threshold. -/
def isSupStuck (oc : Option Config) : Bool :=
  match oc with
  | some ⟨Node.supervisor, s⟩ => s.needs_clarification && decide (2 ≤ s.n_iteration)
  | _ => false

/-- Checks that a run position is a live non-terminal node of the diverging
run (supervisor or policy). -/
def okCfg (oc : Option Config) : Bool :=
  match oc with
  | some ⟨Node.supervisor, _⟩ => true
  | some ⟨Node.policy, _⟩ => true
  | _ => false

lemma ceiling_loop (s : AgentState) (h1 : s.needs_clarification = true)
    (h2 : 2 ≤ s.n_iteration) :
    ∃ s', step badOracle ⟨Node.supervisor, s⟩ = some ⟨Node.supervisor, s'⟩ ∧
      s'.needs_clarification = true ∧ 2 ≤ s'.n_iteration := by
  have hceil : SUPERVISOR_MAX_ITERATIONS ≤ s.n_iteration + 1 := by
    simp only [SUPERVISOR_MAX_ITERATIONS]; omega
  refine ⟨supervisorProcess badOracle.parse (badOracle.supMsg s.n_iteration)
    SUPERVISOR_MAX_ITERATIONS s, ?_, ?_, ?_⟩
  · simp only [step]
    have hs : supervisorProcess badOracle.parse (badOracle.supMsg s.n_iteration)
        SUPERVISOR_MAX_ITERATIONS s =
        { s with
          escalate_to_human := true
          conversation_history := s.conversation_history ++
            "\nAssistant: It seems this issue requires human review. Escalating to a human support specialist."
          next_agent := some "human_escalation_agent"
          n_iteration := s.n_iteration + 1 } := by
      simp [supervisorProcess, hceil]
    rw [hs]
    simp [decide_next_agent, h1, supervisorEdgeMap]
  · simp [supervisorProcess, hceil, h1]
  · simp only [supervisorProcess, hceil, if_pos]
    omega

lemma isSupStuck_step (oc : Option Config) (h : isSupStuck oc = true) :
    isSupStuck (oc.bind (step badOracle)) = true := by
  match oc with
  | none => simp [isSupStuck] at h
  | some ⟨Node.policy, s⟩ => simp [isSupStuck] at h
  | some ⟨Node.billing, s⟩ => simp [isSupStuck] at h
  | some ⟨Node.claims, s⟩ => simp [isSupStuck] at h
  | some ⟨Node.generalHelp, s⟩ => simp [isSupStuck] at h
  | some ⟨Node.humanEscalation, s⟩ => simp [isSupStuck] at h
  | some ⟨Node.finalAnswer, s⟩ => simp [isSupStuck] at h
  | some ⟨Node.supervisor, s⟩ =>
      simp only [isSupStuck, Bool.and_eq_true, decide_eq_true_eq] at h
      obtain ⟨s', hstep, hnc', hn'⟩ := ceiling_loop s h.1 h.2
      simp only [Option.bind, hstep, isSupStuck, hnc', Bool.true_and]
      exact decide_eq_true hn'

lemma isSupStuck_okCfg (oc : Option Config) (h : isSupStuck oc = true) :
    okCfg oc = true := by
  match oc with
  | none => simp [isSupStuck] at h
  | some ⟨node, s⟩ =>
    cases node with
    | supervisor => simp [okCfg]
    | policy => simp [isSupStuck] at h
    | billing => simp [isSupStuck] at h
    | claims => simp [isSupStuck] at h
    | generalHelp => simp [isSupStuck] at h
    | humanEscalation => simp [isSupStuck] at h
    | finalAnswer => simp [isSupStuck] at h

lemma okCfg_implies (oc : Option Config) (h : okCfg oc = true) :
    ∃ cfg, oc = some cfg ∧ (cfg.node = Node.supervisor ∨ cfg.node = Node.policy) := by
  match oc with
  | none => simp [okCfg] at h
  | some ⟨Node.supervisor, s⟩ => exact ⟨⟨Node.supervisor, s⟩, rfl, Or.inl rfl⟩
  | some ⟨Node.policy, s⟩ => exact ⟨⟨Node.policy, s⟩, rfl, Or.inr rfl⟩
  | some ⟨Node.billing, s⟩ => simp [okCfg] at h
  | some ⟨Node.claims, s⟩ => simp [okCfg] at h
  | some ⟨Node.generalHelp, s⟩ => simp [okCfg] at h
  | some ⟨Node.humanEscalation, s⟩ => simp [okCfg] at h
  | some ⟨Node.finalAnswer, s⟩ => simp [okCfg] at h

lemma badRun_stuck : ∀ j, isSupStuck (runN badOracle (j + 3) badInit) = true := by
  intro j
  induction j with
  | zero => decide
  | succ n ih =>
      have heq : runN badOracle (n + 1 + 3) badInit =
          (runN badOracle (n + 3) badInit).bind (step badOracle) := rfl
      rw [heq]
      exact isSupStuck_step _ ih

/-- A parse oracle on which every content string fails `json.loads`. -/
def noParse : String → Option RoutingJson := fun _ => none

/-- A plain-text model reply whose content is not valid JSON. -/
def msgPlain : ModelMsg := ModelMsg.plain "not valid json"

/-- Concrete state entering its third supervisor invocation with a pending
clarification and no escalation flag set. -/
def stCeiling : AgentState :=
  { createInitialState "I want to file a complaint" with
    n_iteration := 2
    needs_clarification := true
    clarification_question := some "Which policy number?"
    user_clarification := some "POL000004" }

/-- Concrete state resolving a clarification on an early iteration, with a
stale specialist routing decision still recorded in `next_agent`. -/
def stClar : AgentState :=
  { createInitialState "What is my deductible?" with
    needs_clarification := true
    clarification_question := some "Which policy number?"
    user_clarification := some "POL000004"
    next_agent := some "policy_agent" }

/-- Concrete state with both `needs_clarification` and `end_conversation`
set simultaneously. -/
def stBoth : AgentState :=
  { createInitialState "Thanks, that is all" with
    needs_clarification := true
    end_conversation := true }

/-- Concrete state whose `next_agent` is an unrecognized identifier. -/
def stMystery : AgentState :=
  { createInitialState "Help me" with next_agent := some "mystery_agent" }

/-- Claim C1, counterexample: at a state entering its third supervisor
invocation (so the `MAX_ITERATIONS = 3` ceiling fires), the resulting state
does NOT have `requires_human_escalation = true` — the ceiling branch writes
the distinct key `escalate_to_human` instead. -/
theorem C1_counterexample :
    SUPERVISOR_MAX_ITERATIONS ≤ stCeiling.n_iteration + 1 ∧
    ¬ ((supervisorProcess noParse msgPlain SUPERVISOR_MAX_ITERATIONS
        stCeiling).requires_human_escalation = true) := by
  decide

/-- Claim C1 (amended): whenever the supervisor is invoked for at least the
`MAX_ITERATIONS`-th time, regardless of the model output, the resulting state
has `escalate_to_human = true` and `next_agent = "human_escalation_agent"`;
`requires_human_escalation` is left unchanged (it is set only later by the
escalation handler), and the ceiling branch takes precedence over a pending
clarification, which is left unresolved. -/
theorem C1_iteration_ceiling (parse : String → Option RoutingJson)
    (msg : ModelMsg) (s : AgentState)
    (h : SUPERVISOR_MAX_ITERATIONS ≤ s.n_iteration + 1) :
    (supervisorProcess parse msg SUPERVISOR_MAX_ITERATIONS s).escalate_to_human = true ∧
    (supervisorProcess parse msg SUPERVISOR_MAX_ITERATIONS s).next_agent =
      some "human_escalation_agent" ∧
    (supervisorProcess parse msg SUPERVISOR_MAX_ITERATIONS s).requires_human_escalation =
      s.requires_human_escalation ∧
    (supervisorProcess parse msg SUPERVISOR_MAX_ITERATIONS s).needs_clarification =
      s.needs_clarification := by
  simp [supervisorProcess, h]

/-- Claim C1, witness for the amended theorem at `stCeiling`. -/
theorem C1_iteration_ceiling_witness :
    SUPERVISOR_MAX_ITERATIONS ≤ stCeiling.n_iteration + 1 ∧
    ((supervisorProcess noParse msgPlain SUPERVISOR_MAX_ITERATIONS
        stCeiling).escalate_to_human = true ∧
      (supervisorProcess noParse msgPlain SUPERVISOR_MAX_ITERATIONS
        stCeiling).next_agent = some "human_escalation_agent" ∧
      (supervisorProcess noParse msgPlain SUPERVISOR_MAX_ITERATIONS
        stCeiling).requires_human_escalation = stCeiling.requires_human_escalation ∧
      (supervisorProcess noParse msgPlain SUPERVISOR_MAX_ITERATIONS
        stCeiling).needs_clarification = stCeiling.needs_clarification) :=
  ⟨by decide, C1_iteration_ceiling noParse msgPlain stCeiling (by decide)⟩

/-- Claim C2: `decide_next_agent` evaluates its conditions in the fixed
precedence order — `needs_clarification` (back to supervisor) before
`end_conversation` ("end", which the edge map sends to the final-answer
node) before `requires_human_escalation` (human escalation) before the
`next_agent` value; in particular with both `needs_clarification` and
`end_conversation` set it routes back to the supervisor. -/
theorem C2_dispatch_precedence (s : AgentState) :
    (s.needs_clarification = true → decide_next_agent s = "supervisor_agent") ∧
    (s.needs_clarification = false → s.end_conversation = true →
      decide_next_agent s = "end" ∧ supervisorEdgeMap "end" = some Node.finalAnswer) ∧
    (s.needs_clarification = false → s.end_conversation = false →
      s.requires_human_escalation = true →
      decide_next_agent s = "human_escalation_agent") ∧
    (s.needs_clarification = false → s.end_conversation = false →
      s.requires_human_escalation = false →
      decide_next_agent s = s.next_agent.getD "general_help_agent") := by
  refine ⟨?_, ?_, ?_, ?_⟩
  · intro h1
    simp [decide_next_agent, h1]
  · intro h1 h2
    exact ⟨by simp [decide_next_agent, h1, h2], by decide⟩
  · intro h1 h2 h3
    simp [decide_next_agent, h1, h2, h3]
  · intro h1 h2 h3
    simp [decide_next_agent, h1, h2, h3]

/-- Claim C2, witness: with both flags set the dispatcher routes back to the
supervisor. -/
theorem C2_dispatch_precedence_witness :
    decide_next_agent stBoth = "supervisor_agent" :=
  (C2_dispatch_precedence stBoth).1 rfl

/-- Claim C3 (refuting bounded termination, exhibiting the code bug): under
the concrete model-output sequence `badOracle` — routing to the policy agent
on the first supervisor invocation and requesting a clarification on the
second — the workflow run from a fresh conversation never reaches a terminal
node: after every number of engine steps it is still at the supervisor or
policy node, because the iteration-ceiling branch leaves
`needs_clarification` set, so the dispatcher self-loops on the supervisor
forever. -/
theorem C3_unbounded_loop (k : Nat) :
    ∃ cfg, runN badOracle k badInit = some cfg ∧
      (cfg.node = Node.supervisor ∨ cfg.node = Node.policy) := by
  apply okCfg_implies
  obtain _ | _ | _ | j := k
  · decide
  · decide
  · decide
  · exact isSupStuck_okCfg _ (badRun_stuck j)

/-- Claim C4, counterexample: a supervisor invocation that resolves a
clarification reply (entered with `needs_clarification = true`, below the
ceiling) DOES increment `n_iteration`. -/
theorem C4_counterexample :
    stClar.needs_clarification = true ∧
    (supervisorProcess noParse msgPlain SUPERVISOR_MAX_ITERATIONS
      stClar).needs_clarification = false ∧
    ¬ ((supervisorProcess noParse msgPlain SUPERVISOR_MAX_ITERATIONS
      stClar).n_iteration = stClar.n_iteration) := by
  decide

/-- Claim C4 (amended): every supervisor invocation increments `n_iteration`
by exactly one, in all three branches — forced escalation, clarification
resolution, and normal routing. -/
theorem C4_iteration_increment (parse : String → Option RoutingJson)
    (msg : ModelMsg) (maxIter : Nat) (s : AgentState) :
    (supervisorProcess parse msg maxIter s).n_iteration = s.n_iteration + 1 := by
  simp only [supervisorProcess]
  split
  · rfl
  · split
    · rfl
    · cases msg <;> simp [routeRequest]

/-- Claim C5, counterexample: after the supervisor resolves a clarification
at `stClar` (which carries the stale routing decision
`next_agent = "policy_agent"`), the dispatcher routes to the policy
specialist, not back to the supervisor. -/
theorem C5_counterexample :
    stClar.needs_clarification = true ∧
    decide_next_agent (supervisorProcess noParse msgPlain
      SUPERVISOR_MAX_ITERATIONS stClar) = "policy_agent" ∧
    ¬ (decide_next_agent (supervisorProcess noParse msgPlain
      SUPERVISOR_MAX_ITERATIONS stClar) = "supervisor_agent") ∧
    supervisorEdgeMap (decide_next_agent (supervisorProcess noParse msgPlain
      SUPERVISOR_MAX_ITERATIONS stClar)) = some Node.policy := by
  decide

/-- Claim C5 (amended): a supervisor invocation entered with
`needs_clarification = true` below the ceiling clears all three clarification
fields and makes no new `next_agent` decision; the dispatcher then routes to
the preserved `next_agent` value (so back to the supervisor only when that
value is `"supervisor_agent"`, and to a stale specialist otherwise). -/
theorem C5_clarification_resolution (parse : String → Option RoutingJson)
    (msg : ModelMsg) (s : AgentState) (hnc : s.needs_clarification = true)
    (hceil : s.n_iteration + 1 < SUPERVISOR_MAX_ITERATIONS) :
    (supervisorProcess parse msg SUPERVISOR_MAX_ITERATIONS s).needs_clarification = false ∧
    (supervisorProcess parse msg SUPERVISOR_MAX_ITERATIONS s).clarification_question = none ∧
    (supervisorProcess parse msg SUPERVISOR_MAX_ITERATIONS s).user_clarification = none ∧
    (supervisorProcess parse msg SUPERVISOR_MAX_ITERATIONS s).next_agent = s.next_agent ∧
    (s.end_conversation = false → s.requires_human_escalation = false →
      decide_next_agent (supervisorProcess parse msg SUPERVISOR_MAX_ITERATIONS s) =
        s.next_agent.getD "general_help_agent") := by
  have hlt : ¬ (SUPERVISOR_MAX_ITERATIONS ≤ s.n_iteration + 1) := by omega
  refine ⟨?_, ?_, ?_, ?_, ?_⟩
  · simp [supervisorProcess, hlt, hnc, handleClarification]
  · simp [supervisorProcess, hlt, hnc, handleClarification]
  · simp [supervisorProcess, hlt, hnc, handleClarification]
  · simp [supervisorProcess, hlt, hnc, handleClarification]
  · intro h1 h2
    simp [supervisorProcess, hlt, hnc, handleClarification, decide_next_agent, h1, h2]

/-- Claim C5, witness for the amended theorem at `stClar`. -/
theorem C5_clarification_resolution_witness :
    stClar.needs_clarification = true ∧
    stClar.n_iteration + 1 < SUPERVISOR_MAX_ITERATIONS ∧
    ((supervisorProcess noParse msgPlain SUPERVISOR_MAX_ITERATIONS
        stClar).needs_clarification = false ∧
      (supervisorProcess noParse msgPlain SUPERVISOR_MAX_ITERATIONS
        stClar).clarification_question = none ∧
      (supervisorProcess noParse msgPlain SUPERVISOR_MAX_ITERATIONS
        stClar).user_clarification = none ∧
      (supervisorProcess noParse msgPlain SUPERVISOR_MAX_ITERATIONS
        stClar).next_agent = stClar.next_agent ∧
      (stClar.end_conversation = false → stClar.requires_human_escalation = false →
        decide_next_agent (supervisorProcess noParse msgPlain
          SUPERVISOR_MAX_ITERATIONS stClar) = stClar.next_agent.getD "general_help_agent")) :=
  ⟨rfl, by decide, C5_clarification_resolution noParse msgPlain stClar rfl (by decide)⟩

/-- Claim C6, counterexample: a state whose `next_agent` holds the
unrecognized identifier `"mystery_agent"` is NOT dispatched to
`general_help_agent`: the dispatcher returns the unrecognized value verbatim,
which has no edge in the workflow path map. -/
theorem C6_counterexample :
    decide_next_agent stMystery = "mystery_agent" ∧
    ¬ (decide_next_agent stMystery = "general_help_agent") ∧
    supervisorEdgeMap (decide_next_agent stMystery) = none := by
  decide

/-- Claim C6 (amended): with no routing flag set, the dispatcher falls back
to `general_help_agent` only when `next_agent` is absent; any present value —
recognized or not — is returned unchanged. -/
theorem C6_unrecognized_routing (s : AgentState)
    (h1 : s.needs_clarification = false) (h2 : s.end_conversation = false)
    (h3 : s.requires_human_escalation = false) :
    (s.next_agent = none → decide_next_agent s = "general_help_agent") ∧
    (∀ v, s.next_agent = some v → decide_next_agent s = v) := by
  constructor
  · intro h
    simp [decide_next_agent, h1, h2, h3, h]
  · intro v h
    simp [decide_next_agent, h1, h2, h3, h]

/-- Claim C6, witness for the amended theorem at `stMystery`. -/
theorem C6_unrecognized_routing_witness :
    stMystery.needs_clarification = false ∧
    decide_next_agent stMystery = "mystery_agent" :=
  ⟨rfl, (C6_unrecognized_routing stMystery rfl rfl rfl).2 "mystery_agent" rfl⟩

/-- Claim C7: when the model's plain-text routing content fails JSON parsing,
the supervisor's routing step returns the fixed fallback triple
`next_agent = "general_help_agent"`,
`task = "Assist the user with their query."`, `justification = ""` (and,
being a total function, does not raise). -/
theorem C7_json_fallback (parse : String → Option RoutingJson)
    (content : String) (s : AgentState) (n_iter : Nat)
    (h : parse content = none) :
    (routeRequest parse (ModelMsg.plain content) s n_iter).next_agent =
      some "general_help_agent" ∧
    (routeRequest parse (ModelMsg.plain content) s n_iter).task =
      some "Assist the user with their query." ∧
    (routeRequest parse (ModelMsg.plain content) s n_iter).justification =
      some "" := by
  simp [routeRequest, h]

/-- Claim C7, witness at a concrete non-JSON content. -/
theorem C7_json_fallback_witness :
    noParse "not valid json" = none ∧
    ((routeRequest noParse (ModelMsg.plain "not valid json") stBoth 1).next_agent =
        some "general_help_agent" ∧
      (routeRequest noParse (ModelMsg.plain "not valid json") stBoth 1).task =
        some "Assist the user with their query." ∧
      (routeRequest noParse (ModelMsg.plain "not valid json") stBoth 1).justification =
        some "") :=
  ⟨rfl, C7_json_fallback noParse "not valid json" stBoth 1 rfl⟩

/-- A tool call whose arguments string is not valid JSON. -/
def badToolCall : ToolCallReq := ⟨"get_policy_details", none⟩

/-- A registry holding one normally-returning policy lookup tool. -/
def sampleRegistry : ToolRegistry :=
  [("get_policy_details", fun _ => ToolExec.returns "policy record")]

/-- A registry holding one raising policy lookup tool. -/
def raisingRegistry : ToolRegistry :=
  [("get_policy_details", fun _ => ToolExec.raises "Policy lookup failed")]

lemma execTools_ok (toolFns : ToolRegistry) (calls : List ToolCallReq)
    (h : ∀ c ∈ calls, c.args.isSome) :
    ∃ msgs, execTools toolFns calls = Except.ok msgs := by
  induction calls with
  | nil => exact ⟨[], rfl⟩
  | cons c cs ih =>
      obtain ⟨a, ha⟩ := Option.isSome_iff_exists.mp (h c (by simp))
      obtain ⟨msgs, hm⟩ := ih (fun x hx => h x (by simp [hx]))
      have hc : ∃ m, execToolCall toolFns c = Except.ok m := by
        rcases hf : lookupTool toolFns c.name with _ | f
        · exact ⟨ToolMsg.errorPayload ("Tool \x27" ++ c.name ++ "\x27 not implemented."),
            by simp [execToolCall, ha, hf]⟩
        · rcases hfa : f a with v | m
          · exact ⟨ToolMsg.resultPayload v, by simp [execToolCall, ha, hf, hfa]⟩
          · exact ⟨ToolMsg.errorPayload m, by simp [execToolCall, ha, hf, hfa]⟩
      obtain ⟨m, hm1⟩ := hc
      refine ⟨m :: msgs, ?_⟩
      simp only [execTools, hm1, hm]
      rfl

/-- Claim C8, counterexample: a tool call carrying a malformed arguments
string aborts the turn — `json.loads` on the arguments runs outside the
`try`, so `run_llm` raises `JSONDecodeError` instead of feeding an error
payload to the second round trip. -/
theorem C8_counterexample :
    run_llm (LLMFirstResponse.toolCalls [badToolCall] "") sampleRegistry
      (fun _ => "final answer") = Except.error PyErr.jsonDecodeError := rfl

/-- Claim C8 (amended): a tool function that raises, or a tool call naming an
unregistered function, is converted into a structured error payload and the
turn completes with the second round-trip's text; but a tool call whose
arguments string fails JSON parsing aborts the turn (previous theorem). -/
theorem C8_tool_error_recovery :
    (∀ (toolFns : ToolRegistry) (tc : ToolCallReq) (a : ArgsV)
        (f : ArgsV → ToolExec) (msg : String),
      tc.args = some a → lookupTool toolFns tc.name = some f →
      f a = ToolExec.raises msg →
      execToolCall toolFns tc = Except.ok (ToolMsg.errorPayload msg)) ∧
    (∀ (toolFns : ToolRegistry) (tc : ToolCallReq) (a : ArgsV),
      tc.args = some a → lookupTool toolFns tc.name = none →
      execToolCall toolFns tc =
        Except.ok (ToolMsg.errorPayload ("Tool \x27" ++ tc.name ++ "\x27 not implemented."))) ∧
    (∀ (toolFns : ToolRegistry) (secondRound : List ToolMsg → String)
        (calls : List ToolCallReq) (content : String),
      calls.isEmpty = false → toolFns.isEmpty = false →
      (∀ c ∈ calls, c.args.isSome) →
      ∃ msgs, run_llm (LLMFirstResponse.toolCalls calls content) toolFns secondRound =
        Except.ok (secondRound msgs)) := by
  refine ⟨?_, ?_, ?_⟩
  · intro toolFns tc a f msg ha hf hfa
    simp [execToolCall, ha, hf, hfa]
  · intro toolFns tc a ha hf
    simp [execToolCall, ha, hf]
  · intro toolFns secondRound calls content hcalls htf hargs
    obtain ⟨msgs, hm⟩ := execTools_ok toolFns calls hargs
    exact ⟨msgs, by simp [run_llm, hcalls, htf, hm, Except.map]⟩

/-- Claim C8, witness: a raising tool function is turned into an error
payload. -/
theorem C8_tool_error_recovery_witness :
    execToolCall raisingRegistry ⟨"get_policy_details", some []⟩ =
      Except.ok (ToolMsg.errorPayload "Policy lookup failed") :=
  C8_tool_error_recovery.1 raisingRegistry ⟨"get_policy_details", some []⟩ []
    (fun _ => ToolExec.raises "Policy lookup failed") "Policy lookup failed" rfl rfl rfl

/-- A vector store whose `query` call raises. -/
def failingVStore : VectorStoreOracle :=
  ⟨Except.error "ChromaDB connection failed", fun _ => ""⟩

/-- Claim C9 (exhibiting the code bug): when the FAQ retrieval query raises,
the general-help handler does NOT complete the turn — after substituting the
error context string and generating the response, the unconditional
`results.get("metadatas", [])` hits the unbound local `results` and the turn
fails with a `NameError`. -/
theorem C9_retrieval_crash :
    generalHelpProcess failingVStore (fun _ _ _ => "Here is some help.")
      (createInitialState "What does comprehensive cover?") =
      Except.error (PyErr.nameError "results") := rfl

/-- Claim C10, counterexample: the policy handler appends its assistant
message but leaves `conversation_history` unchanged — no
`"Policy Agent: <result>"` line is appended. -/
theorem C10_counterexample :
    (policyProcess "Here are the policy details." stClar).messages =
      stClar.messages ++ [("assistant", "Here are the policy details.")] ∧
    (policyProcess "Here are the policy details." stClar).conversation_history =
      stClar.conversation_history ∧
    ¬ ((policyProcess "Here are the policy details." stClar).conversation_history =
      stClar.conversation_history ++ "\nPolicy Agent: Here are the policy details.") := by
  decide

/-- The general-help handler's generated answer on a successful retrieval:
the LLM oracle applied to the task, the history and the formatted FAQ
context. -/
def ghAnswer (q : QueryResults) (fmt : QueryResults → String)
    (ghLlm : String → String → String → String) (s : AgentState) : String :=
  ghLlm (s.task.getD "General insurance support") s.conversation_history
    (if q.metadatas.isEmpty then "No relevant FAQs were found." else fmt q)

/-- Claim C10 (amended): every specialist handler appends exactly one
`(assistant, result)` entry to `messages`; the billing and general-help
handlers additionally append their `"<HandlerLabel>: <result>"` line to
`conversation_history`, while the policy and claims handlers leave
`conversation_history` unchanged. -/
theorem C10_handler_appends (result : String) (s : AgentState)
    (q : QueryResults) (fmt : QueryResults → String)
    (ghLlm : String → String → String → String) :
    (policyProcess result s).messages = s.messages ++ [("assistant", result)] ∧
    (policyProcess result s).conversation_history = s.conversation_history ∧
    (claimsProcess result s).messages = s.messages ++ [("assistant", result)] ∧
    (claimsProcess result s).conversation_history = s.conversation_history ∧
    (billingProcess result s).messages = s.messages ++ [("assistant", result)] ∧
    (billingProcess result s).conversation_history =
      s.conversation_history ++ "\nBilling Agent: " ++ result ∧
    generalHelpProcess ⟨Except.ok q, fmt⟩ ghLlm s =
      Except.ok
        { addMessage s "assistant" (ghAnswer q fmt ghLlm s) with
          retrieved_faqs := some q.metadatas
          conversation_history :=
            s.conversation_history ++ "\nGeneral Help Agent: " ++ ghAnswer q fmt ghLlm s } ∧
    (addMessage s "assistant" (ghAnswer q fmt ghLlm s)).messages =
      s.messages ++ [("assistant", ghAnswer q fmt ghLlm s)] := by
  have hbm : (billingProcess result s).messages = s.messages ++ [("assistant", result)] := by
    simp only [billingProcess, addMessage]
    cases s.policy_number <;> cases s.customer_id <;> rfl
  have hbh : (billingProcess result s).conversation_history =
      s.conversation_history ++ "\nBilling Agent: " ++ result := by
    simp only [billingProcess, addMessage]
  have hgh : generalHelpProcess ⟨Except.ok q, fmt⟩ ghLlm s =
      Except.ok
        { addMessage s "assistant" (ghAnswer q fmt ghLlm s) with
          retrieved_faqs := some q.metadatas
          conversation_history :=
            s.conversation_history ++ "\nGeneral Help Agent: " ++ ghAnswer q fmt ghLlm s } := by
    rfl
  exact ⟨rfl, rfl, rfl, rfl, hbm, hbh, hgh, rfl⟩

end MultiAgent
